import Mathlib

/-! Verification of `video_xblock/mixins.py` (video-xblock repository).

The file shallowly embeds the mixin operations of the source file:
pure Python string manipulation becomes Lean functions on `String`,
XBlock field state becomes explicit state passing over `XState V`,
fallible dict lookups become `Option`, and the third-party `pycaption`
library (not part of this repository) is abstracted as a record of its
two entry points used by the code (`detect_format`, `WebVTTWriter.write`).
-/

namespace VideoXBlock

/-! Model of the third-party `pycaption` library

`pycaption` is an external dependency (`from pycaption import detect_format,
WebVTTWriter`), so it is modelled abstractly: `detect_format` either finds a
reader for the raw caption string or not, a reader parses the string into an
abstract caption type `C`, and `webvtt_write` renders captions as WebVTT. -/

structure PyCaption (C : Type) where
  detect_format : String → Option (String → C)
  webvtt_write : C → String

/-- Source `TranscriptsMixin.convert_caps_to_vtt` (mixins.py lines 84-99):
`reader = detect_format(caps); if reader: return WebVTTWriter().write(reader().read(caps)); return u''`. -/
def convert_caps_to_vtt {C : Type} (lib : PyCaption C) (caps : String) : String :=
  match lib.detect_format caps with
  | some reader => lib.webvtt_write (reader caps)
  | none => ""

/-! String helpers mirroring the Python operations used by
`convert_3playmedia_caps_to_vtt` (str.splitlines, `in`, slicing, join,
replace).  They are written by structural recursion on `List Char` so that
concrete instances evaluate in the kernel.  `splitlinesGo` models Python
`str.splitlines` with its full separator set: `\n`, `\r`, `\r\n` (one
break), `\v`, `\f`, the file/group/record separators `\x1c`-`\x1e`, `\x85`,
`U+2028` and `U+2029`, and no trailing empty line. -/

/-- Tests whether a character is one of the line boundaries Python
`str.splitlines` splits on. -/
def isLineBreak (c : Char) : Bool :=
  c = '\n' || c = '\r' || c = '\x0b' || c = '\x0c' || c = '\x1c' || c = '\x1d' ||
  c = '\x1e' || c = '\x85' || c = '\u2028' || c = '\u2029'

def splitlinesGo : List Char → List Char → List (List Char)
  | [], acc => [acc.reverse]
  | '\r' :: '\n' :: rest, acc =>
    acc.reverse :: (if rest.isEmpty then [] else splitlinesGo rest [])
  | c :: rest, acc =>
    if isLineBreak c then
      acc.reverse :: (if rest.isEmpty then [] else splitlinesGo rest [])
    else splitlinesGo rest (c :: acc)

/-- Python `caps.splitlines()`: split at every line boundary of
`isLineBreak`, counting `\r\n` as a single boundary; the empty string gives
no lines and a trailing boundary produces no trailing empty line. -/
def pySplitlines (s : String) : List (List Char) :=
  if s.data.isEmpty then [] else splitlinesGo s.data []

/-- Tests whether `needle` occurs at the start of the second list. -/
def startsWithSeq : List Char → List Char → Bool
  | [], _ => true
  | _ :: _, [] => false
  | a :: as, b :: bs => a = b && startsWithSeq as bs

/-- Python `needle in hay` substring test. -/
def hasSubSeq (needle : List Char) : List Char → Bool
  | [] => needle.isEmpty
  | c :: rest => startsWithSeq needle (c :: rest) || hasSubSeq needle rest

/-- Python `caps.replace('\n&nbsp;', '')`: removes every occurrence of the
seven-character sequence, scanning left to right. -/
def stripNbsp : List Char → List Char
  | '\n' :: '&' :: 'n' :: 'b' :: 's' :: 'p' :: ';' :: rest => stripNbsp rest
  | c :: rest => c :: stripNbsp rest
  | [] => []

/-- Python `'\n'.join(out)`. -/
def joinNl : List (List Char) → List Char
  | [] => []
  | [l] => l
  | l :: ls => l ++ '\n' :: joinNl ls

/-- The per-line normalization of `convert_3playmedia_caps_to_vtt`
(mixins.py lines 177-184): an empty line becomes `' \n'`, a line containing
`-->` (a cue-timing line) is truncated to its first 29 characters, any other
line is kept. -/
def normalize3pmLine (item : List Char) : List Char :=
  if item = [] then [' ', '\n']
  else if hasSubSeq ('-' :: '-' :: '>' :: []) item then item.take 29
  else item

/-- The caption-content preprocessing of `convert_3playmedia_caps_to_vtt`
(mixins.py lines 176-186): split into lines, normalize each line, re-join
with `\n` and delete every `'\n&nbsp;'`. -/
def preprocess_3pm (caps : String) : String :=
  String.mk (stripNbsp (joinNl ((pySplitlines caps).map normalize3pmLine)))

/-- The conversion step of `convert_3playmedia_caps_to_vtt` (mixins.py lines
176-187): the preprocessing above followed by `self.convert_caps_to_vtt(caps=caps)`.
The remainder of the method (asset upload via `create_transcript_file`) does
not transform caption content further. -/
def convert_3playmedia_conversion {C : Type} (lib : PyCaption C) (caps : String) : String :=
  convert_caps_to_vtt lib (preprocess_3pm caps)

/-- Stated from the spec's words, for claim C7: the caption-format-conversion
library composition `detect_format` then `reader().read` then
`WebVTTWriter().write`, applied directly to the input with no additional
transformation (empty output when no reader is detected). -/
def pycaption_pipeline {C : Type} (lib : PyCaption C) (caps : String) : String :=
  match lib.detect_format caps with
  | some reader => lib.webvtt_write (reader caps)
  | none => ""

/-! XBlock field declarations and scopes

`xblock.fields.Scope` is the host's storage-partitioning concept; the mixins
only pick a scope per declared field.  `transcripts_mixin_fields` and
`playback_state_mixin_fields` list, in source order, every persisted field
declared by `TranscriptsMixin` (mixins.py lines 61-82) and
`PlaybackStateMixin` (mixins.py lines 380-430) with its declared scope. -/

inductive Scope where
  | content
  | settings
  | user_state
  | preferences
  | user_info
  | user_state_summary
deriving DecidableEq, Repr

def transcripts_mixin_fields : List (String × Scope) :=
  [("threeplaymedia_streaming", Scope.content),
   ("threeplaymedia_apikey", Scope.content),
   ("threeplaymedia_file_id", Scope.content)]

def playback_state_mixin_fields : List (String × Scope) :=
  [("current_time", Scope.user_state),
   ("playback_rate", Scope.preferences),
   ("volume", Scope.preferences),
   ("muted", Scope.preferences),
   ("captions_language", Scope.preferences),
   ("transcripts", Scope.content),
   ("transcripts_enabled", Scope.preferences),
   ("captions_enabled", Scope.preferences)]

/-- Every persisted field the mixins declare, with its scope. -/
def declared_fields : List (String × Scope) :=
  transcripts_mixin_fields ++ playback_state_mixin_fields

/-! Transcript records and `route_transcripts`

A transcript record is a transient dict with keys `lang`, `lang_id`, `id`,
`url`, `label` (produced by `get_enabled_transcripts`, which is defined
outside this file; `route_transcripts` only consumes the list it returns,
so the list is a parameter).  `runtime.handler_url(self, handler, query)`
is a host service, abstracted as a function of the handler name and query. -/

structure Transcript where
  lang : String
  lang_id : String
  id : String
  url : String
  label : String
deriving DecidableEq, Repr

/-- Source `TranscriptsMixin.route_transcripts` (mixins.py lines 101-121): for each
enabled transcript, when `threeplaymedia_streaming` is set, its url is
replaced by the `fetch_from_three_play_media` handler url with query
`'<lang_id>=<id>'`; otherwise a url not ending in `.vtt` is replaced by the
`srt_to_vtt` handler url with the original url as query; each transcript is
then yielded. -/
def route_transcripts (streaming : Bool) (handler_url : String → String → String) :
    List Transcript → List Transcript
  | [] => []
  | tran :: rest =>
    (if streaming then
      { tran with url := handler_url "fetch_from_three_play_media" (tran.lang_id ++ "=" ++ tran.id) }
     else if tran.url.endsWith ".vtt" then tran
     else { tran with url := handler_url "srt_to_vtt" tran.url })
    :: route_transcripts streaming handler_url rest

/-! Player state

XBlock fields are read and written dynamically (`getattr`/`setattr` over
`player_state_fields`), so the field state is modelled as a total map from
field name to a value type `V` (the handler copies JSON values into fields
without inspecting them).  `u2m` abstracts `utils.underscore_to_mixedcase`
(defined outside this file); the request of the `save_player_state` JSON
handler is a dict, modelled as `String → Option V` with `none` for a missing
key (a missing key makes the Python `request[...]` raise `KeyError`). -/

def XState (V : Type) : Type := String → V

/-- Python `setattr(self, f, v)`. -/
def setField {V : Type} (s : XState V) (f : String) (v : V) : XState V :=
  fun g => if g = f then v else s g

/-- Python association-dict lookup (`d[k]` / `d.get(k)`); keys are distinct
in every dict the code builds. -/
def alookup {V : Type} : List (String × V) → String → Option V
  | [], _ => none
  | (k, v) :: rest, key => if key = k then some v else alookup rest key

/-- Source `PlaybackStateMixin.player_state_fields` (mixins.py lines 432-435). -/
def player_state_fields : List String :=
  ["current_time", "muted", "playback_rate", "volume", "transcripts_enabled",
   "captions_enabled", "captions_language", "transcripts"]

/-- The `player_state` setter (mixins.py lines 470-479): for each name in
`player_state_fields`, `setattr(self, f, state.get(f, getattr(self, f)))`. -/
def player_state_set {V : Type} (s : XState V) (state : List (String × V)) : XState V :=
  player_state_fields.foldl (fun st f => setField st f ((alookup state f).getD (st f))) s

/-- The dict-building loop of `save_player_state` (mixins.py lines 492-498):
starting from `{'transcripts': self.transcripts}`, each field name not
already a key is bound to `request[u2m(field_name)]`; a missing request key
raises (`none`). -/
def build_player_state {V : Type} (u2m : String → String) (request : String → Option V) :
    List String → List (String × V) → Option (List (String × V))
  | [], d => some d
  | f :: fs, d =>
    if (alookup d f).isSome then build_player_state u2m request fs d
    else
      match request (u2m f) with
      | none => none
      | some v => build_player_state u2m request fs (d ++ [(f, v)])

/-- Source `PlaybackStateMixin.save_player_state` (mixins.py lines 481-501): build
the state dict from `self.transcripts` and the request, assign it through the
`player_state` setter and return `{'success': True}`. -/
def save_player_state {V : Type} (s : XState V) (u2m : String → String)
    (request : String → Option V) : Option (XState V × List (String × Bool)) :=
  match build_player_state u2m request player_state_fields [("transcripts", s "transcripts")] with
  | none => none
  | some d => some (player_state_set s d, [("success", true)])

/-! 3PlayMedia API model

`get_available_3pm_transcripts` issues `requests.get` against the 3PlayMedia
API and returns `response.json()` when the response is ok, else the dict
`{"failed": True}`.  A JSON result is either a list of transcript-data dicts
(each carrying `id` and `language_id`) or a dict (error payloads carry
`errors`).  The HTTP layer is abstracted as a function from url to response. -/

def THREE_PLAY_MEDIA_API_DOMAIN : String := "https://static.3playmedia.com/"

structure TranscriptData where
  id : String
  language_id : String
deriving DecidableEq, Repr

inductive ApiJson where
  | arr (items : List TranscriptData)
  | obj (has_errors : Bool)
deriving DecidableEq, Repr

/-- Python `isinstance(results, dict)`. -/
def ApiJson.isDict : ApiJson → Bool
  | .arr _ => false
  | .obj _ => true

structure HttpResponse where
  ok : Bool
  json : ApiJson
deriving Repr

/-- Source `TranscriptsMixin.get_available_3pm_transcripts` (mixins.py lines
220-236): GET `{domain}files/{file_id}/transcripts?apikey={api_key}`; json on
ok, else the `{"failed": True}` dict. -/
def get_available_3pm_transcripts (http : String → HttpResponse)
    (file_id apikey : String) : ApiJson :=
  let response := http (THREE_PLAY_MEDIA_API_DOMAIN ++ "files/" ++ file_id ++
    "/transcripts?apikey=" ++ apikey)
  if response.ok then response.json else ApiJson.obj false

/-- Python truthiness of an optional JSON string (`None` and `''` are falsy). -/
def truthyStr : Option String → Bool
  | none => false
  | some s => !(s = "")

/-- Python truthiness of an optional JSON boolean. -/
def truthyB : Option Bool → Bool
  | none => false
  | some b => b

/-- Source `TranscriptsMixin.validate_three_play_media_config` (mixins.py lines
334-369), returning the `(isValid, message)` pair of its JSON response. -/
def validate_three_play_media_config (http : String → HttpResponse)
    (api_key file_id : Option String) (streaming_enabled : Option Bool) :
    Bool × String :=
  if api_key = none ∧ file_id = none then (true, "Initialization")
  else if truthyStr api_key = false ∧ truthyStr file_id = false ∧
      truthyB streaming_enabled = false then (true, "Success")
  else if (truthyStr api_key && truthyStr file_id) = false then
    (false, "Check provided 3PlayMedia configuration")
  else
    let results := get_available_3pm_transcripts http (file_id.getD "") (api_key.getD "")
    let is_valid := !results.isDict
    (is_valid, if is_valid then "Success" else "Check provided 3PlayMedia configuration")

/-! State-threaded transcript-producing operations (for the frame claim)

Each operation below is the embedding of a method that reads fields and
computes transient transcript records; none of them contains a `setattr` on a
field, so each returns its input state unchanged alongside its output.
`Transcript3PM` is `utils.Transcript`, the namedtuple returned by
`fetch_3pm_translation`. -/

structure Transcript3PM where
  id : String
  content : String
  lang : String
  lang_id : String
  label : String
  video_id : String
  format : String
  source : String
  url : String
deriving DecidableEq, Repr

/-- Ambient context of the 3PlayMedia fetch operations, abstracting code
outside this file: `fetchText` is `requests.get(...).text` (`none` models the
caught fetch exception), `lang_of` is `TPMApiLanguage` giving iso code and
name (constants.py), `media_id` is `get_player().media_id(self.href)`,
`webvtt_fmt` is `TPMApiTranscriptFormatID.WEBVTT`, `source_label` is
`TranscriptSource.THREE_PLAY_MEDIA`, and `toStr` reads the string stored in a
field value. -/
structure TPMEnv (V : Type) where
  fetchText : String → Option String
  lang_of : String → String × String
  media_id : String
  webvtt_fmt : String
  source_label : String
  toStr : V → String

/-- Source `TranscriptsMixin.fetch_3pm_translation` (mixins.py lines 238-275):
build the external API url from the `threeplaymedia_file_id` and
`threeplaymedia_apikey` fields, GET it (`none` on a fetch exception), and
wrap the text in a `Transcript` namedtuple. -/
def fetch_3pm_translation {V : Type} (env : TPMEnv V) (s : XState V)
    (tid lang_id format_id : String) : Option Transcript3PM :=
  let url := THREE_PLAY_MEDIA_API_DOMAIN ++ "files/" ++
    env.toStr (s "threeplaymedia_file_id") ++ "/transcripts/" ++ tid ++
    "?apikey=" ++ env.toStr (s "threeplaymedia_apikey") ++ "&format_id=" ++ format_id
  match env.fetchText url with
  | none => none
  | some content =>
    some ⟨tid, content, (env.lang_of lang_id).1, lang_id, (env.lang_of lang_id).2,
      env.media_id, format_id, env.source_label, url⟩

/-- The yield loop of `fetch_available_3pm_transcripts` (mixins.py lines
212-218): fetch each translation, stop at the first failure, blank out the
`content` of each yielded ordered dict. -/
def fetch_3pm_loop {V : Type} (env : TPMEnv V) (s : XState V) :
    List TranscriptData → List Transcript3PM
  | [] => []
  | d :: rest =>
    match fetch_3pm_translation env s d.id d.language_id env.webvtt_fmt with
    | none => []
    | some t => { t with content := "" } :: fetch_3pm_loop env s rest

/-- Source `TranscriptsMixin.fetch_available_3pm_transcripts` (mixins.py lines
198-218) with the field state threaded explicitly: list the transcripts
available for the `threeplaymedia_file_id`/`threeplaymedia_apikey` fields and
yield each fetched translation.  A dict result produces no yielded records
(the generator stops on `errors`, and a dict without `errors` fails before
the first yield). -/
def fetch_available_3pm_transcripts (http : String → HttpResponse) {V : Type}
    (env : TPMEnv V) (s : XState V) : XState V × List Transcript3PM :=
  (s,
    match get_available_3pm_transcripts http (env.toStr (s "threeplaymedia_file_id"))
        (env.toStr (s "threeplaymedia_apikey")) with
    | .obj _ => []
    | .arr items => fetch_3pm_loop env s items)

/-- Source `route_transcripts` with the field state threaded explicitly: it reads
the `threeplaymedia_streaming` field and yields transient records, writing no
field. -/
def route_transcripts_op {V : Type} (truthy : V → Bool)
    (handler_url : String → String → String) (enabled : List Transcript)
    (s : XState V) : XState V × List Transcript :=
  (s, route_transcripts (truthy (s "threeplaymedia_streaming")) handler_url enabled)

/-- A value of the heterogeneous player-state dict built by the
`player_state` getter. -/
inductive PVal (V : Type) where
  | v (x : V)
  | trans (l : List Transcript)
  | transObj (l : List (String × String × String))
deriving DecidableEq

/-- Python `dict.setdefault(k, v)` on an association dict. -/
def setdefaultA {A : Type} (d : List (String × A)) (k : String) (v : A) :
    List (String × A) :=
  if (alookup d k).isSome then d else d ++ [(k, v)]

/-- The `player_state` getter (mixins.py lines 450-468) with the field state
threaded explicitly: build the transient state dict (`captionsLanguage` falls
back to the course language when the `captions_language` field is falsy,
`transcriptsObject` maps language to url and label, `transcripts` is the
enabled list) and `setdefault` the mixed-case name of every field in
`player_state_fields` to that field's value. -/
def player_state_get {V : Type} (truthy : V → Bool) (course_lang : V)
    (enabled : List Transcript) (u2m : String → String) (s : XState V) :
    XState V × List (String × PVal V) :=
  (s,
    player_state_fields.foldl (fun d f => setdefaultA d (u2m f) (PVal.v (s f)))
      [("captionsLanguage",
          if truthy (s "captions_language") then PVal.v (s "captions_language")
          else PVal.v course_lang),
       ("transcriptsObject", PVal.transObj (enabled.map (fun t => (t.lang, t.url, t.label)))),
       ("transcripts", PVal.trans enabled)])

/-! External-interaction traces

Each constructor is one of the interaction mechanisms the mixins use:
runtime service lookup, runtime handler-url construction, field get/set
through host scopes, and direct HTTP GET through the `requests` library.
`hostMediated` marks the host-mediated ones.  The `_effects` definitions
list, in order, the external interactions each cited operation performs
(calls into repository methods outside this file are not expanded). -/

inductive Effect where
  | serviceLookup (name : String)
  | handlerUrl (handler : String) (query : String)
  | fieldGet (name : String)
  | fieldSet (name : String)
  | httpGet (url : String)
deriving DecidableEq, Repr

def hostMediated : Effect → Bool
  | .httpGet _ => false
  | _ => true

def Effect.isHttpGet : Effect → Bool
  | .httpGet _ => true
  | _ => false

/-- Interactions of `get_available_3pm_transcripts` (mixins.py lines
220-236): a single direct `requests.get` against the 3PlayMedia API. -/
def get_available_3pm_transcripts_effects (file_id apikey : String) : List Effect :=
  [Effect.httpGet (THREE_PLAY_MEDIA_API_DOMAIN ++ "files/" ++ file_id ++
    "/transcripts?apikey=" ++ apikey)]

/-- Interactions of `fetch_3pm_translation` (mixins.py lines 238-275): field
reads to build the url, then a direct `requests.get`. -/
def fetch_3pm_translation_effects (file_id apikey tid format_id : String) : List Effect :=
  [Effect.fieldGet "threeplaymedia_file_id",
   Effect.fieldGet "threeplaymedia_apikey",
   Effect.httpGet (THREE_PLAY_MEDIA_API_DOMAIN ++ "files/" ++ file_id ++
     "/transcripts/" ++ tid ++ "?apikey=" ++ apikey ++ "&format_id=" ++ format_id),
   Effect.fieldGet "href"]

/-- Interactions of `download_transcript` (mixins.py lines 277-297): a direct
`requests.get` of the query-string url against the request's host. -/
def download_transcript_effects (host_url query_string : String) : List Effect :=
  [Effect.httpGet (host_url ++ query_string)]

/-- Interactions of `srt_to_vtt` (mixins.py lines 299-314): a direct
`requests.get` of the caption path against the request's host. -/
def srt_to_vtt_effects (host_url caps_path : String) : List Effect :=
  [Effect.httpGet (host_url ++ caps_path)]

/-- Interactions of `route_transcripts` (mixins.py lines 101-121): a field
read and a `runtime.handler_url` call per re-routed transcript. -/
def route_transcripts_effects (streaming : Bool) : List Transcript → List Effect
  | [] => []
  | tran :: rest =>
    Effect.fieldGet "threeplaymedia_streaming" ::
      ((if streaming then
          [Effect.handlerUrl "fetch_from_three_play_media" (tran.lang_id ++ "=" ++ tran.id)]
        else if tran.url.endsWith ".vtt" then []
        else [Effect.handlerUrl "srt_to_vtt" tran.url]) ++
       route_transcripts_effects streaming rest)

/-! Helper lemmas about association-dict lookups and the
`save_player_state` dict-building loop. -/

/-- Looking a key up in an extended dict still finds the original binding. -/
theorem alookup_append_left {V : Type} (d e : List (String × V)) (k : String) (v : V)
    (h : alookup d k = some v) : alookup (d ++ e) k = some v := by
  induction d with
  | nil => simp [alookup] at h
  | cons p rest ih =>
    obtain ⟨kk, vv⟩ := p
    simp only [alookup, List.cons_append] at h ⊢
    by_cases hk : k = kk
    · rw [if_pos hk] at h ⊢; exact h
    · rw [if_neg hk] at h ⊢; exact ih h

/-- The dict-building loop of `save_player_state` never loses a binding the
initial dict already has. -/
theorem build_player_state_preserves {V : Type} (u2m : String → String)
    (request : String → Option V) (k : String) (v : V) :
    ∀ (fs : List String) (d dd : List (String × V)), alookup d k = some v →
      build_player_state u2m request fs d = some dd → alookup dd k = some v := by
  intro fs
  induction fs with
  | nil =>
    intro d dd hd hb
    simp only [build_player_state, Option.some.injEq] at hb
    rw [← hb]; exact hd
  | cons f rest ih =>
    intro d dd hd hb
    simp only [build_player_state] at hb
    by_cases hs : (alookup d f).isSome
    · rw [if_pos hs] at hb; exact ih d dd hd hb
    · rw [if_neg hs] at hb
      cases hr : request (u2m f) with
      | none => rw [hr] at hb; exact Option.noConfusion hb
      | some w =>
        rw [hr] at hb
        exact ih _ dd (alookup_append_left d [(f, w)] k v hd) hb

/-! Claims -/

/-- Claim C1: for every raw transcript string in a supported input format
(one for which `detect_format` returns a reader), `convert_caps_to_vtt`
returns that transcript converted to WebVTT, namely the output of
`WebVTTWriter().write` applied to the captions parsed by the reader. -/
theorem convert_caps_to_vtt_converts_supported {C : Type} (lib : PyCaption C)
    (caps : String) (reader : String → C)
    (h : lib.detect_format caps = some reader) :
    convert_caps_to_vtt lib caps = lib.webvtt_write (reader caps) := by
  unfold convert_caps_to_vtt
  rw [h]

/-- Witness for claim C1 at a concrete library and input. -/
theorem convert_caps_to_vtt_converts_supported_witness :
    convert_caps_to_vtt ⟨fun _ => some (fun s => s ++ "!"), fun c => c⟩ "hello" = "hello!" :=
  convert_caps_to_vtt_converts_supported _ "hello" (fun s => s ++ "!") rfl

/-- Claim C2: the persisted field declarations partition state exactly as the
spec's storage rules say: `current_time` is the only per-user-state field;
`playback_rate`, `volume`, `muted`, `captions_language`,
`transcripts_enabled` and `captions_enabled` are exactly the
per-user-preference fields; `transcripts`, `threeplaymedia_streaming`,
`threeplaymedia_apikey` and `threeplaymedia_file_id` are exactly the
per-content fields; and those three scopes cover every field the mixins
declare. -/
theorem declared_fields_partition :
    ((declared_fields.filter (fun p => decide (p.2 = Scope.user_state))).map Prod.fst =
      ["current_time"]) ∧
    ((declared_fields.filter (fun p => decide (p.2 = Scope.preferences))).map Prod.fst =
      ["playback_rate", "volume", "muted", "captions_language", "transcripts_enabled",
       "captions_enabled"]) ∧
    ((declared_fields.filter (fun p => decide (p.2 = Scope.content))).map Prod.fst =
      ["threeplaymedia_streaming", "threeplaymedia_apikey", "threeplaymedia_file_id",
       "transcripts"]) ∧
    (declared_fields.filter (fun p =>
      decide (p.2 = Scope.user_state ∨ p.2 = Scope.preferences ∨ p.2 = Scope.content))).length =
      declared_fields.length := by
  decide

/-- Claim C3: for every request dict containing a mixedCase key for each
player-state field, `save_player_state` persists the per-user playback state:
it sets every field in `player_state_fields` other than `transcripts` to the
request's corresponding mixedCase value and returns `{'success': True}`. -/
theorem save_player_state_sets_player_fields {V : Type} (s : XState V)
    (u2m : String → String) (request : String → Option V)
    (ct mu pr vo te ce cl : V)
    (hct : request (u2m "current_time") = some ct)
    (hmu : request (u2m "muted") = some mu)
    (hpr : request (u2m "playback_rate") = some pr)
    (hvo : request (u2m "volume") = some vo)
    (hte : request (u2m "transcripts_enabled") = some te)
    (hce : request (u2m "captions_enabled") = some ce)
    (hcl : request (u2m "captions_language") = some cl) :
    ∃ ss : XState V,
      save_player_state s u2m request = some (ss, [("success", true)]) ∧
      ss "current_time" = ct ∧ ss "muted" = mu ∧ ss "playback_rate" = pr ∧
      ss "volume" = vo ∧ ss "transcripts_enabled" = te ∧
      ss "captions_enabled" = ce ∧ ss "captions_language" = cl := by
  have hbuild : build_player_state u2m request player_state_fields
      [("transcripts", s "transcripts")] =
      some [("transcripts", s "transcripts"), ("current_time", ct), ("muted", mu),
        ("playback_rate", pr), ("volume", vo), ("transcripts_enabled", te),
        ("captions_enabled", ce), ("captions_language", cl)] := by
    simp [player_state_fields, build_player_state, alookup, hct, hmu, hpr, hvo, hte, hce, hcl]
  refine ⟨player_state_set s [("transcripts", s "transcripts"), ("current_time", ct),
    ("muted", mu), ("playback_rate", pr), ("volume", vo), ("transcripts_enabled", te),
    ("captions_enabled", ce), ("captions_language", cl)], ?_, ?_, ?_, ?_, ?_, ?_, ?_, ?_⟩
  · simp [save_player_state, hbuild]
  all_goals simp [player_state_set, player_state_fields, setField, alookup]

/-- Witness for claim C3 at a concrete state and request. -/
theorem save_player_state_sets_player_fields_witness :
    ∃ ss : XState Nat,
      save_player_state (fun _ => 0) (fun f => f) (fun _ => some 5) =
        some (ss, [("success", true)]) ∧
      ss "current_time" = 5 ∧ ss "muted" = 5 ∧ ss "playback_rate" = 5 ∧
      ss "volume" = 5 ∧ ss "transcripts_enabled" = 5 ∧
      ss "captions_enabled" = 5 ∧ ss "captions_language" = 5 :=
  save_player_state_sets_player_fields (fun _ => 0) (fun f => f) (fun _ => some 5)
    5 5 5 5 5 5 5 rfl rfl rfl rfl rfl rfl rfl

/-- Claim C4: `route_transcripts` yields every enabled transcript exactly
once (same length, element for element), and each yielded record's url is
the `fetch_from_three_play_media` handler url with query
`'<lang_id>=<id>'` when streaming is on, the `srt_to_vtt` handler url with
the original url as query when streaming is off and the url does not end in
`.vtt`, and the unchanged record otherwise. -/
theorem route_transcripts_yields_each_once (streaming : Bool)
    (hu : String → String → String) (ts : List Transcript) :
    (route_transcripts streaming hu ts).length = ts.length ∧
    ∀ i : Nat, (route_transcripts streaming hu ts)[i]? =
      (ts[i]?).map (fun tran =>
        if streaming then
          { tran with url := hu "fetch_from_three_play_media" (tran.lang_id ++ "=" ++ tran.id) }
        else if tran.url.endsWith ".vtt" then tran
        else { tran with url := hu "srt_to_vtt" tran.url }) := by
  constructor
  · induction ts with
    | nil => rfl
    | cons t rest ih => simp [route_transcripts, ih]
  · intro i
    induction ts generalizing i with
    | nil => simp [route_transcripts]
    | cons t rest ih =>
      cases i with
      | zero => simp [route_transcripts]
      | succ j => simpa [route_transcripts] using ih j

/-- Claim C5: transcript records are transient: `route_transcripts`,
`fetch_available_3pm_transcripts` and the `player_state` getter recompute
their transcript dicts from the current field state and parameters on each
request and leave the whole field state (hence every declared field)
unchanged. -/
theorem transcript_records_transient {V : Type} (truthy : V → Bool)
    (hu : String → String → String) (enabled : List Transcript)
    (http : String → HttpResponse) (env : TPMEnv V) (course_lang : V)
    (u2m : String → String) (s : XState V) :
    (route_transcripts_op truthy hu enabled s).1 = s ∧
    (fetch_available_3pm_transcripts http env s).1 = s ∧
    (player_state_get truthy course_lang enabled u2m s).1 = s :=
  ⟨rfl, rfl, rfl⟩

/-- Claim C6 counterexample: not every external data flow is host-mediated —
`get_available_3pm_transcripts` performs a direct `requests.get` against the
3PlayMedia API, an interaction that is neither a service lookup, nor handler
dispatch, nor field access. -/
theorem external_flow_not_host_mediated :
    (get_available_3pm_transcripts_effects "88" "key").all hostMediated = false := rfl

/-- Claim C6 (amended): the mixins interact with the outside through host
mechanisms (service lookups, handler urls, field get/set) and, in addition,
direct HTTP GETs issued with the `requests` library; `route_transcripts` is
fully host-mediated, while the only non-host-mediated interactions of
`get_available_3pm_transcripts`, `fetch_3pm_translation`,
`download_transcript` and `srt_to_vtt` are their direct HTTP GETs of the
3PlayMedia API urls and of the request host url. -/
theorem external_flows_host_mediated_or_http_get (streaming : Bool)
    (ts : List Transcript) (fid key tid fmt host query caps : String) :
    (route_transcripts_effects streaming ts).all hostMediated = true ∧
    (get_available_3pm_transcripts_effects fid key).filter (fun e => !hostMediated e) =
      [Effect.httpGet (THREE_PLAY_MEDIA_API_DOMAIN ++ "files/" ++ fid ++
        "/transcripts?apikey=" ++ key)] ∧
    (fetch_3pm_translation_effects fid key tid fmt).filter (fun e => !hostMediated e) =
      [Effect.httpGet (THREE_PLAY_MEDIA_API_DOMAIN ++ "files/" ++ fid ++ "/transcripts/" ++
        tid ++ "?apikey=" ++ key ++ "&format_id=" ++ fmt)] ∧
    (download_transcript_effects host query).filter (fun e => !hostMediated e) =
      [Effect.httpGet (host ++ query)] ∧
    (srt_to_vtt_effects host caps).filter (fun e => !hostMediated e) =
      [Effect.httpGet (host ++ caps)] := by
  refine ⟨?_, rfl, rfl, rfl, rfl⟩
  induction ts with
  | nil => rfl
  | cons t rest ih =>
    simp only [route_transcripts_effects, List.all_cons, List.all_append, ih, hostMediated,
      Bool.and_true, Bool.true_and]
    split
    · rfl
    · split <;> rfl

/-- Claim C7 counterexample: the conversion step of
`convert_3playmedia_caps_to_vtt` is not extensionally equal to the bare
library composition: on the input `"a\n&nbsp;"` the preprocessing changes
the caption content (it deletes `'\n&nbsp;'`), so for a library whose
reader and writer are the identity the two sides differ. -/
theorem conversion_step_not_raw_pipeline :
    @convert_3playmedia_conversion String ⟨fun _ => some (fun s => s), fun c => c⟩ "a\n&nbsp;"
      ≠ @pycaption_pipeline String ⟨fun _ => some (fun s => s), fun c => c⟩ "a\n&nbsp;" := by
  decide

/-- Claim C7 (amended): `convert_caps_to_vtt` is extensionally equal to the
library composition `detect_format` then `reader().read` then
`WebVTTWriter().write` (empty on an undetected format) with no additional
transformation, and the conversion step of `convert_3playmedia_caps_to_vtt`
equals that same library composition applied after the method's caption
normalization (every Python line break — `\r\n`, `\r`, `\v`, `\f` and the
other `str.splitlines` boundaries — rewritten to `\n`, blank lines replaced
by `' \n'`, cue-timing lines containing `-->` truncated to 29 characters,
every `'\n&nbsp;'` removed) — this normalization is the only additional
transformation the code performs. -/
theorem conversion_equals_pipeline_after_preprocessing {C : Type}
    (lib : PyCaption C) (caps : String) :
    convert_caps_to_vtt lib caps = pycaption_pipeline lib caps ∧
    convert_3playmedia_conversion lib caps = pycaption_pipeline lib (preprocess_3pm caps) :=
  ⟨rfl, rfl⟩

/-- Claim C8: for every input string whose caption format is not detected
(`detect_format` returns no reader), `convert_caps_to_vtt` returns the empty
string. -/
theorem convert_caps_to_vtt_undetected_empty {C : Type} (lib : PyCaption C)
    (caps : String) (h : lib.detect_format caps = none) :
    convert_caps_to_vtt lib caps = "" := by
  unfold convert_caps_to_vtt
  rw [h]

/-- Witness for claim C8 at a concrete library and input. -/
theorem convert_caps_to_vtt_undetected_empty_witness :
    @convert_caps_to_vtt String ⟨fun _ => none, fun c => c⟩ "abc" = "" :=
  convert_caps_to_vtt_undetected_empty _ "abc" rfl

/-- Claim C9: for every request payload, `save_player_state` leaves the
per-content `transcripts` field unchanged: whenever it succeeds, the
resulting state's `transcripts` equals its value before the call. -/
theorem save_player_state_preserves_transcripts {V : Type} (s : XState V)
    (u2m : String → String) (request : String → Option V) (ss : XState V)
    (r : List (String × Bool))
    (h : save_player_state s u2m request = some (ss, r)) :
    ss "transcripts" = s "transcripts" := by
  unfold save_player_state at h
  cases hb : build_player_state u2m request player_state_fields
      [("transcripts", s "transcripts")] with
  | none => rw [hb] at h; exact Option.noConfusion h
  | some d =>
    rw [hb] at h
    have hd : alookup d "transcripts" = some (s "transcripts") :=
      build_player_state_preserves u2m request _ _ player_state_fields _ d
        (by simp [alookup]) hb
    have hss : player_state_set s d = ss := congrArg Prod.fst (Option.some.inj h)
    rw [← hss]
    simp [player_state_set, player_state_fields, setField, hd]

/-- Witness for claim C9 at a concrete state and request. -/
theorem save_player_state_preserves_transcripts_witness :
    ∃ ss : XState Nat, ∃ r,
      save_player_state (fun _ => 3) (fun f => f) (fun _ => some 7) = some (ss, r) ∧
      ss "transcripts" = 3 := by
  have h : save_player_state (fun _ => (3 : Nat)) (fun f => f) (fun _ => some 7) =
      some (player_state_set (fun _ => 3) [("transcripts", 3), ("current_time", 7),
        ("muted", 7), ("playback_rate", 7), ("volume", 7), ("transcripts_enabled", 7),
        ("captions_enabled", 7), ("captions_language", 7)], [("success", true)]) := rfl
  exact ⟨_, _, h, save_player_state_preserves_transcripts _ _ _ _ _ h⟩

/-- Claim C10: `validate_three_play_media_config` is piecewise total over its
inputs: isValid True with message Initialization when `api_key` and `file_id`
are both None; isValid True with message Success when `api_key`, `file_id`
and `streaming_enabled` are all falsy (and the first case does not apply);
isValid False with the configuration-check message whenever `api_key` and
`file_id` are not both truthy and the previous cases do not apply; and
otherwise isValid is True exactly when the 3PlayMedia API lookup for
`(file_id, api_key)` does not return a dict. -/
theorem validate_three_play_media_config_cases (http : String → HttpResponse)
    (ak fid : Option String) (se : Option Bool) :
    (ak = none ∧ fid = none →
      validate_three_play_media_config http ak fid se = (true, "Initialization")) ∧
    (¬(ak = none ∧ fid = none) → truthyStr ak = false → truthyStr fid = false →
      truthyB se = false →
      validate_three_play_media_config http ak fid se = (true, "Success")) ∧
    (¬(ak = none ∧ fid = none) →
      ¬(truthyStr ak = false ∧ truthyStr fid = false ∧ truthyB se = false) →
      (truthyStr ak && truthyStr fid) = false →
      validate_three_play_media_config http ak fid se =
        (false, "Check provided 3PlayMedia configuration")) ∧
    (truthyStr ak = true → truthyStr fid = true →
      (validate_three_play_media_config http ak fid se).1 =
        !(get_available_3pm_transcripts http (fid.getD "") (ak.getD "")).isDict) := by
  unfold validate_three_play_media_config
  refine ⟨fun h => ?_, fun h1 h2 h3 h4 => ?_, fun h1 h2 h3 => ?_, fun h1 h2 => ?_⟩
  · rw [if_pos h]
  · rw [if_neg h1, if_pos ⟨h2, h3, h4⟩]
  · rw [if_neg h1, if_neg h2, if_pos h3]
  · have ha : ¬(ak = none ∧ fid = none) := by
      rintro ⟨hn, -⟩
      rw [hn] at h1
      exact Bool.noConfusion h1
    have hb : ¬(truthyStr ak = false ∧ truthyStr fid = false ∧ truthyB se = false) := by
      rintro ⟨x, -⟩
      rw [h1] at x
      exact Bool.noConfusion x
    have hc : ¬((truthyStr ak && truthyStr fid) = false) := by
      rw [h1, h2]
      simp
    rw [if_neg ha, if_neg hb, if_neg hc]

/-- Witness for claim C10: one concrete input per piece of the case split. -/
theorem validate_three_play_media_config_cases_witness :
    validate_three_play_media_config (fun _ => ⟨true, ApiJson.arr []⟩) none none none =
      (true, "Initialization") ∧
    validate_three_play_media_config (fun _ => ⟨true, ApiJson.arr []⟩) (some "") (some "")
      (some false) = (true, "Success") ∧
    validate_three_play_media_config (fun _ => ⟨true, ApiJson.arr []⟩) (some "k") (some "")
      none = (false, "Check provided 3PlayMedia configuration") ∧
    (validate_three_play_media_config (fun _ => ⟨true, ApiJson.arr []⟩) (some "k") (some "f")
      none).1 =
      !(get_available_3pm_transcripts (fun _ => ⟨true, ApiJson.arr []⟩) "f" "k").isDict :=
  ⟨(validate_three_play_media_config_cases _ _ _ _).1 ⟨rfl, rfl⟩,
   (validate_three_play_media_config_cases _ _ _ _).2.1 (by decide) (by decide) (by decide) rfl,
   (validate_three_play_media_config_cases _ _ _ _).2.2.1 (by decide) (by decide) (by decide),
   (validate_three_play_media_config_cases _ _ _ _).2.2.2 (by decide) (by decide)⟩

end VideoXBlock
